import Mathlib

/-!
A shallow embedding of `packages/core/src/standards/event.ts` from the
miniflare repository: the `FetchEvent` / `ScheduledEvent` classes and the
`ServiceWorkerGlobalScope` dispatch engine (`#wrap`, `addEventListener`,
`removeEventListener`, `#dispatchEvent`, `dispatchEvent`, `[kDispatchFetch]`,
`[kDispatchScheduled]`).

Modelling choices:
* JavaScript promises are modelled as `JSPromise α`: a settle time (a step
  of the event loop at which the promise settles) together with an
  `Except JSError α` outcome.  `Promise.all` over such promises fulfils at
  the maximum settle time when every input fulfils, and rejects at the
  earliest rejection otherwise (fail-fast), matching the ECMAScript
  semantics on deterministic inputs.
* Mutation is made explicit: event methods return the updated event together
  with an optional thrown error (`none` = normal return), since a JS `throw`
  leaves mutations performed before it in place.
* Listener bodies are modelled as a function from the event (as observed at
  invocation) to a list of API actions, the only effects listener code can
  have on the engine: `respondWith`, `waitUntil`, `passThroughOnException`,
  or throwing.  Listener identity (the key of the `WeakMap` side table and
  of `EventTarget` deduplication) is a numeric `id`.
* `withWaitUntil` (from `./http`) attaches the background future to the
  response; we model its result as the pair (response, background future).
* The `undici` global `fetch` used on the proxy-fallback path is passed in
  as an explicit collaborator function, and `Date.now()` as a clock value.
-/

/-- A JavaScript value, as far as `waitUntil` payloads are concerned. -/
inductive JSValue where
  | undef : JSValue
  | num : Int → JSValue
  | str : String → JSValue
deriving DecidableEq, Repr

/-- A thrown JavaScript error: `DOMException(message, name)`,
`TypeError(message)`, or an arbitrary thrown value from listener code. -/
inductive JSError where
  | domException : String → String → JSError
  | typeError : String → JSError
  | jsError : JSValue → JSError
deriving DecidableEq, Repr

/-- A settled-by-construction model of a JS promise: the event-loop step at
which it settles and its outcome. -/
structure JSPromise (α : Type) where
  settleTime : Nat
  result : Except JSError α
deriving Repr

instance {ε α : Type} [DecidableEq ε] [DecidableEq α] : DecidableEq (Except ε α) :=
  fun a b =>
    match a, b with
    | .ok x, .ok y =>
      if h : x = y then .isTrue (by rw [h]) else .isFalse (by simp [h])
    | .ok _, .error _ => .isFalse (by simp)
    | .error _, .ok _ => .isFalse (by simp)
    | .error x, .error y =>
      if h : x = y then .isTrue (by rw [h]) else .isFalse (by simp [h])

instance {α : Type} [DecidableEq α] : DecidableEq (JSPromise α) := by
  intro a b
  cases a
  cases b
  simp only [JSPromise.mk.injEq]
  exact instDecidableAnd

/-- `Promise.resolve` on a plain (non-thenable) value. -/
def JSPromise.resolved {α : Type} (v : α) : JSPromise α := ⟨0, .ok v⟩

/-- The rejections among a list of promises, as (settleTime, error) pairs in
list order. -/
def rejectionsOf {α : Type} (ps : List (JSPromise α)) : List (Nat × JSError) :=
  ps.filterMap fun p =>
    match p.result with
    | .error e => some (p.settleTime, e)
    | .ok _ => none

/-- The earliest rejection (ties broken by list order), if any. -/
def firstRejection {α : Type} (ps : List (JSPromise α)) : Option (Nat × JSError) :=
  (rejectionsOf ps).foldl
    (fun acc te =>
      match acc with
      | none => some te
      | some te0 => if te.1 < te0.1 then some te else some te0)
    none

/-- The step at which the last of the promises settles. -/
def maxSettleTime {α : Type} (ps : List (JSPromise α)) : Nat :=
  (ps.map JSPromise.settleTime).foldl max 0

/-- The fulfilled values of a list of promises, in list order. -/
def fulfilledValues {α : Type} (ps : List (JSPromise α)) : List α :=
  ps.filterMap fun p =>
    match p.result with
    | .ok v => some v
    | .error _ => none

/-- `Promise.all`: fulfils with the values in order once every input has
fulfilled; rejects with (and at the time of) the earliest rejection
otherwise. -/
def promiseAll {α : Type} (ps : List (JSPromise α)) : JSPromise (List α) :=
  match firstRejection ps with
  | some (t, e) => ⟨t, .error e⟩
  | none => ⟨maxSettleTime ps, .ok (fulfilledValues ps)⟩

/-- A `Request` as far as `event.ts` manipulates it: a URL and a header
list.  `clone()` copies the value; `headers.delete(name)` removes entries
case-insensitively. -/
structure Request where
  url : String
  headers : List (String × String)
deriving DecidableEq, Repr

/-- `request.clone()`: a fresh request with the same contents. -/
def Request.clone (r : Request) : Request := ⟨r.url, r.headers⟩

/-- `request.headers.delete(name)` (header names compare case-insensitively). -/
def Request.deleteHeader (r : Request) (name : String) : Request :=
  ⟨r.url, r.headers.filter fun h => h.1.toLower ≠ name.toLower⟩

/-- A `Response`, opaque to the dispatch engine. -/
structure Response where
  body : String
deriving DecidableEq, Repr

/-- The message of the `DOMException` thrown by a second `respondWith`. -/
def respondWithTwiceMessage : String :=
  "FetchEvent.respondWith() has already been called; it can only be called once."

/-- The message of the `DOMException` thrown by a late `respondWith`. -/
def respondWithLateMessage : String :=
  "Too late to call FetchEvent.respondWith(). It must be called synchronously in the event handler."

/-- The `TypeError` thrown when no fetch handler responded and there is no
upstream to proxy to. -/
def unhandledRequestError : JSError :=
  .typeError ("No fetch handler responded and no upstream to proxy to specified.\n" ++
    "Have you added a fetch event listener that responds with a Response?")

/-- `class FetchEvent`: request, the private `[kResponse]`, `[kPassThrough]`,
`[kWaitUntil]` and `[kSent]` slots, plus the base `Event`'s
stop-immediate-propagation flag. -/
structure FetchEvent where
  request : Request
  kResponse : Option (JSPromise Response)
  kPassThrough : Bool
  kWaitUntil : List (JSPromise JSValue)
  kSent : Bool
  stopImmediate : Bool
deriving Repr

/-- `new FetchEvent(request)`. -/
def FetchEvent.new (request : Request) : FetchEvent :=
  ⟨request, none, false, [], false, false⟩

/-- `FetchEvent.respondWith(response)`: throws `InvalidStateError` if a
response is already stored or the event was already sent; otherwise stops
immediate propagation and stores `Promise.resolve(response)` (resolving a
promise adopts it). -/
def FetchEvent.respondWith (e : FetchEvent) (response : JSPromise Response) :
    FetchEvent × Option JSError :=
  if e.kResponse.isSome then
    (e, some (.domException respondWithTwiceMessage "InvalidStateError"))
  else if e.kSent then
    (e, some (.domException respondWithLateMessage "InvalidStateError"))
  else
    ({ e with stopImmediate := true, kResponse := some response }, none)

/-- `FetchEvent.passThroughOnException()`. -/
def FetchEvent.passThroughOnException (e : FetchEvent) : FetchEvent :=
  { e with kPassThrough := true }

/-- `FetchEvent.waitUntil(promise)`: pushes onto `[kWaitUntil]`,
unconditionally. -/
def FetchEvent.waitUntil (e : FetchEvent) (p : JSPromise JSValue) :
    FetchEvent × Option JSError :=
  ({ e with kWaitUntil := e.kWaitUntil ++ [p] }, none)

/-- `class ScheduledEvent`: scheduledTime, cron, `[kWaitUntil]`, plus the
base `Event`'s stop-immediate-propagation flag. -/
structure ScheduledEvent where
  scheduledTime : Int
  cron : String
  kWaitUntil : List (JSPromise JSValue)
  stopImmediate : Bool
deriving Repr

/-- `new ScheduledEvent(scheduledTime, cron)`. -/
def ScheduledEvent.new (scheduledTime : Int) (cron : String) : ScheduledEvent :=
  ⟨scheduledTime, cron, [], false⟩

/-- `ScheduledEvent.waitUntil(promise)`. -/
def ScheduledEvent.waitUntil (e : ScheduledEvent) (p : JSPromise JSValue) :
    ScheduledEvent × Option JSError :=
  ({ e with kWaitUntil := e.kWaitUntil ++ [p] }, none)

/-- One step a fetch listener body can take through the engine's API. -/
inductive FetchAction where
  | respondWith : JSPromise Response → FetchAction
  | waitUntil : JSPromise JSValue → FetchAction
  | passThroughOnException : FetchAction
  | throwErr : JSError → FetchAction

/-- One step a scheduled listener body can take through the engine's API. -/
inductive SchedAction where
  | waitUntil : JSPromise JSValue → SchedAction
  | throwErr : JSError → SchedAction

/-- Run a fetch listener body (its actions, computed from the event it was
handed) against the event: actions execute in order; a thrown error (from
`throwErr`, or re-raised out of `respondWith`) aborts the remaining actions
but keeps the mutations already performed. -/
def runFetchActions : List FetchAction → FetchEvent → FetchEvent × Option JSError
  | [], e => (e, none)
  | .respondWith r :: rest, e =>
    match FetchEvent.respondWith e r with
    | (e', none) => runFetchActions rest e'
    | (e', some err) => (e', some err)
  | .waitUntil p :: rest, e => runFetchActions rest (FetchEvent.waitUntil e p).1
  | .passThroughOnException :: rest, e =>
    runFetchActions rest (FetchEvent.passThroughOnException e)
  | .throwErr err :: _, e => (e, some err)

/-- Run a scheduled listener body against the event. -/
def runSchedActions : List SchedAction → ScheduledEvent → ScheduledEvent × Option JSError
  | [], e => (e, none)
  | .waitUntil p :: rest, e => runSchedActions rest (ScheduledEvent.waitUntil e p).1
  | .throwErr err :: _, e => (e, some err)

/-- A fetch listener: an identity (the reference the `WeakMap` and
`EventTarget` key on) and a body reading the event it is invoked with. -/
structure FetchListener where
  id : Nat
  run : FetchEvent → List FetchAction

/-- A scheduled listener. -/
structure SchedListener where
  id : Nat
  run : ScheduledEvent → List SchedAction

/-- The mutable state of a `ServiceWorkerGlobalScope`: the `#modules` flag,
the `#wrappedListeners` `WeakMap` (original listener identity → shim
identity) with a fresh-identity counter for newly created shims, the
`EventTarget` listener registries per event type (shim identity paired with
the wrapped original, in registration order), the `#wrappedError` slot, and
the `#log` record of `warn` calls. -/
structure ScopeState where
  modules : Bool
  wrapMap : List (Nat × Nat)
  nextWrapId : Nat
  fetchRegistry : List (Nat × FetchListener)
  schedRegistry : List (Nat × SchedListener)
  wrappedError : Option JSError
  warnings : List JSError

/-- A scope with no listeners registered yet. -/
def ScopeState.empty (modules : Bool) : ScopeState :=
  ⟨modules, [], 0, [], [], none, []⟩

/-- Look up an original listener identity in the `#wrappedListeners` map. -/
def lookupWrap (m : List (Nat × Nat)) (id : Nat) : Option Nat :=
  match m with
  | [] => none
  | (k, v) :: rest => if k = id then some v else lookupWrap rest id

/-- `#wrap(listener)`: return the memoized shim identity for this listener
if one exists, otherwise create a fresh shim, memoize it, and return it.
(The shim's behaviour — try/catch around the original body, recording the
error in `#wrappedError` and stopping immediate propagation — lives in
`runWrappedFetch` / `runWrappedSched`.) -/
def wrapId (s : ScopeState) (id : Nat) : ScopeState × Nat :=
  match lookupWrap s.wrapMap id with
  | some w => (s, w)
  | none =>
    ({ s with wrapMap := s.wrapMap ++ [(id, s.nextWrapId)],
              nextWrapId := s.nextWrapId + 1 },
     s.nextWrapId)

/-- `super.addEventListener("fetch", shim)`: `EventTarget` appends unless a
listener with the same identity is already registered; a `null` listener
registers nothing. -/
def superAddFetch (s : ScopeState) (l : Option FetchListener) : ScopeState :=
  match l with
  | none => s
  | some l =>
    let (s', w) := wrapId s l.id
    if (s'.fetchRegistry.map Prod.fst).contains w then s'
    else { s' with fetchRegistry := s'.fetchRegistry ++ [(w, l)] }

/-- `super.addEventListener("scheduled", shim)`. -/
def superAddSched (s : ScopeState) (l : Option SchedListener) : ScopeState :=
  match l with
  | none => s
  | some l =>
    let (s', w) := wrapId s l.id
    if (s'.schedRegistry.map Prod.fst).contains w then s'
    else { s' with schedRegistry := s'.schedRegistry ++ [(w, l)] }

/-- `#addEventListener("fetch", ...)`: the internal registration that skips
the modules-mode check. -/
def hashAddFetch (s : ScopeState) (l : Option FetchListener) : ScopeState :=
  superAddFetch s l

/-- `#addEventListener("scheduled", ...)`. -/
def hashAddSched (s : ScopeState) (l : Option SchedListener) : ScopeState :=
  superAddSched s l

/-- The `TypeError` message of `addEventListener` in modules mode. -/
def modulesAddMessage : String :=
  "Global addEventListener() cannot be used in modules. Instead, event " ++
    "handlers should be declared as exports on the root module."

/-- The `TypeError` message of `removeEventListener` in modules mode. -/
def modulesRemoveMessage : String :=
  "Global removeEventListener() cannot be used in modules. Instead, event " ++
    "handlers should be declared as exports on the root module."

/-- The `TypeError` message of `dispatchEvent` in modules mode. -/
def modulesDispatchMessage : String :=
  "Global dispatchEvent() cannot be used in modules. Instead, event " ++
    "handlers should be declared as exports on the root module."

/-- Public `addEventListener("fetch", ...)`: throws a `TypeError` in modules
mode, otherwise registers through `#addEventListener`. -/
def addEventListenerFetch (s : ScopeState) (l : Option FetchListener) :
    Except JSError ScopeState :=
  if s.modules then .error (.typeError modulesAddMessage)
  else .ok (hashAddFetch s l)

/-- Public `addEventListener("scheduled", ...)`. -/
def addEventListenerSched (s : ScopeState) (l : Option SchedListener) :
    Except JSError ScopeState :=
  if s.modules then .error (.typeError modulesAddMessage)
  else .ok (hashAddSched s l)

/-- Public `removeEventListener("fetch", ...)`: throws a `TypeError` in
modules mode, otherwise removes `#wrap(listener)` from the registry (the
wrap is recomputed — only a memoized shim can match a registered one). -/
def removeEventListenerFetch (s : ScopeState) (l : Option FetchListener) :
    Except JSError ScopeState :=
  if s.modules then .error (.typeError modulesRemoveMessage)
  else
    match l with
    | none => .ok s
    | some l =>
      let (s', w) := wrapId s l.id
      .ok { s' with fetchRegistry := s'.fetchRegistry.filter fun q => q.1 ≠ w }

/-- Public `removeEventListener("scheduled", ...)`. -/
def removeEventListenerSched (s : ScopeState) (l : Option SchedListener) :
    Except JSError ScopeState :=
  if s.modules then .error (.typeError modulesRemoveMessage)
  else
    match l with
    | none => .ok s
    | some l =>
      let (s', w) := wrapId s l.id
      .ok { s' with schedRegistry := s'.schedRegistry.filter fun q => q.1 ≠ w }

/-- Invoke one wrapped fetch listener (the shim created by `#wrap`): run the
original body with try/catch; on a throw, stop the event's immediate
propagation and record the error in `#wrappedError`. -/
def runWrappedFetch (s : ScopeState) (l : FetchListener) (e : FetchEvent) :
    ScopeState × FetchEvent :=
  match runFetchActions (l.run e) e with
  | (e', none) => (s, e')
  | (e', some err) =>
    ({ s with wrappedError := some err }, { e' with stopImmediate := true })

/-- Invoke one wrapped scheduled listener. -/
def runWrappedSched (s : ScopeState) (l : SchedListener) (e : ScheduledEvent) :
    ScopeState × ScheduledEvent :=
  match runSchedActions (l.run e) e with
  | (e', none) => (s, e')
  | (e', some err) =>
    ({ s with wrappedError := some err }, { e' with stopImmediate := true })

/-- `EventTarget` fan-out over the fetch registry: listeners run in
registration order; once the event's stop-immediate-propagation flag is set,
remaining listeners are skipped. -/
def fanoutFetch : ScopeState → List (Nat × FetchListener) → FetchEvent →
    ScopeState × FetchEvent
  | s, [], e => (s, e)
  | s, (_, l) :: rest, e =>
    if e.stopImmediate then (s, e)
    else
      match runWrappedFetch s l e with
      | (s', e') => fanoutFetch s' rest e'

/-- `EventTarget` fan-out over the scheduled registry. -/
def fanoutSched : ScopeState → List (Nat × SchedListener) → ScheduledEvent →
    ScopeState × ScheduledEvent
  | s, [], e => (s, e)
  | s, (_, l) :: rest, e =>
    if e.stopImmediate then (s, e)
    else
      match runWrappedSched s l e with
      | (s', e') => fanoutSched s' rest e'

/-- `#dispatchEvent(event)` for a fetch event: clear `#wrappedError`, run the
`EventTarget` fan-out, then rethrow the captured error if a listener threw.
Returns the state, the event, and the captured error (`none` = the dispatch
returned normally). -/
def hashDispatchFetchEvent (s : ScopeState) (e : FetchEvent) :
    ScopeState × FetchEvent × Option JSError :=
  let s0 := { s with wrappedError := none }
  match fanoutFetch s0 s0.fetchRegistry e with
  | (s1, e1) => (s1, e1, s1.wrappedError)

/-- `#dispatchEvent(event)` for a scheduled event. -/
def hashDispatchSchedEvent (s : ScopeState) (e : ScheduledEvent) :
    ScopeState × ScheduledEvent × Option JSError :=
  let s0 := { s with wrappedError := none }
  match fanoutSched s0 s0.schedRegistry e with
  | (s1, e1) => (s1, e1, s1.wrappedError)

/-- Public `dispatchEvent(event)` on a fetch event: throws a `TypeError` in
modules mode, otherwise `#dispatchEvent` (whose captured listener error, if
any, is thrown to the caller; the `true` result of a completed dispatch is
returned otherwise). -/
def dispatchEventFetch (s : ScopeState) (e : FetchEvent) :
    Except JSError (ScopeState × FetchEvent × Bool) :=
  if s.modules then .error (.typeError modulesDispatchMessage)
  else
    match hashDispatchFetchEvent s e with
    | (_, _, some err) => .error err
    | (s1, e1, none) => .ok (s1, e1, true)

/-- Public `dispatchEvent(event)` on a scheduled event. -/
def dispatchEventSched (s : ScopeState) (e : ScheduledEvent) :
    Except JSError (ScopeState × ScheduledEvent × Bool) :=
  if s.modules then .error (.typeError modulesDispatchMessage)
  else
    match hashDispatchSchedEvent s e with
    | (_, _, some err) => .error err
    | (s1, e1, none) => .ok (s1, e1, true)

/-- Where control leaves the `try`/`catch` of `[kDispatchFetch]`: an early
`return` out of the `try`, a rethrow out of the `catch`, or falling through
to the code after the statement. -/
inductive TryOutcome where
  | returned : Response → JSPromise (List JSValue) → TryOutcome
  | thrown : JSError → TryOutcome
  | fallthrough : TryOutcome

/-- The `catch` clause of `[kDispatchFetch]`: with the event's pass-through
flag set, `#log.warn(e.stack)` and fall through to the proxy-or-unhandled
code; otherwise rethrow. -/
def dispatchFetchCatch (s : ScopeState) (e : FetchEvent) (err : JSError) :
    ScopeState × TryOutcome :=
  if e.kPassThrough then
    ({ s with warnings := s.warnings ++ [err] }, .fallthrough)
  else (s, .thrown err)

/-- `[kDispatchFetch](request, proxy)`.  `fetchUpstream` models the `undici`
global `fetch` used on the proxy-fallback path.  Returns the final scope
state, the `FetchEvent` the call created (so its slots can be observed), and
either the thrown error or the pair `(response, waitUntil)` that
`withWaitUntil` attaches together. -/
def kDispatchFetch (s : ScopeState) (fetchUpstream : Request → JSPromise Response)
    (request : Request) (proxy : Bool) :
    ScopeState × FetchEvent × Except JSError (Response × JSPromise (List JSValue)) :=
  let event := FetchEvent.new (if proxy then request.clone else request)
  match hashDispatchFetchEvent s event with
  | (s1, e1, derr) =>
    let step : ScopeState × TryOutcome :=
      match derr with
      | some err => dispatchFetchCatch s1 e1 err
      | none =>
        match e1.kResponse with
        | none => (s1, .fallthrough)
        | some p =>
          match p.result with
          | .error err => dispatchFetchCatch s1 e1 err
          | .ok resp => (s1, .returned resp (promiseAll e1.kWaitUntil))
    let s2 := step.1
    let e2 := { e1 with kSent := true }
    match step.2 with
    | .returned r wu => (s2, e2, .ok (r, wu))
    | .thrown err => (s2, e2, .error err)
    | .fallthrough =>
      if !proxy then (s2, e2, .error unhandledRequestError)
      else
        let request' := request.deleteHeader "host"
        let wu := promiseAll e2.kWaitUntil
        match (fetchUpstream request').result with
        | .error err => (s2, e2, .error err)
        | .ok r => (s2, e2, .ok (r, wu))

/-- `[kDispatchScheduled](scheduledTime?, cron?)`: build the event from the
caller-supplied or defaulted arguments (`Date.now()` is the `now`
parameter), `#dispatchEvent` it (a listener throw propagates), and await
`Promise.all` of the queued background tasks. -/
def kDispatchScheduled (s : ScopeState) (now : Int)
    (scheduledTime : Option Int) (cron : Option String) :
    ScopeState × ScheduledEvent × Except JSError (List JSValue) :=
  let event := ScheduledEvent.new (scheduledTime.getD now) (cron.getD "")
  match hashDispatchSchedEvent s event with
  | (s1, e1, some err) => (s1, e1, .error err)
  | (s1, e1, none) => (s1, e1, (promiseAll e1.kWaitUntil).result)

/-! ## Helper lemmas -/

/-- `Request.clone` copies the value. -/
lemma Request.clone_self (r : Request) : r.clone = r := rfl

/-- No listener action touches the `[kSent]` slot. -/
lemma runFetchActions_kSent (as : List FetchAction) (e : FetchEvent) :
    ((runFetchActions as e).1).kSent = e.kSent := by
  induction as generalizing e with
  | nil => rfl
  | cons a rest ih =>
    cases a with
    | respondWith r =>
      simp only [runFetchActions, FetchEvent.respondWith]
      by_cases h1 : e.kResponse.isSome
      · simp [h1]
      · by_cases h2 : e.kSent
        · simp [h1, h2]
        · simp [h1, h2, ih]
    | waitUntil p => simp only [runFetchActions, FetchEvent.waitUntil]; rw [ih]
    | passThroughOnException =>
      simp only [runFetchActions, FetchEvent.passThroughOnException]; rw [ih]
    | throwErr err => rfl

/-- Fan-out skips every listener once the stop-immediate flag is set. -/
lemma fanoutFetch_stop (s : ScopeState) (reg : List (Nat × FetchListener))
    (e : FetchEvent) (h : e.stopImmediate = true) :
    fanoutFetch s reg e = (s, e) := by
  cases reg with
  | nil => rfl
  | cons q rest => cases q; simp [fanoutFetch, h]

/-- Fan-out steps over a listener that returns normally. -/
lemma fanoutFetch_cons_ok (s : ScopeState) (w : Nat) (l : FetchListener)
    (rest : List (Nat × FetchListener)) (e e' : FetchEvent)
    (hstop : e.stopImmediate = false)
    (hrun : runFetchActions (l.run e) e = (e', none)) :
    fanoutFetch s ((w, l) :: rest) e = fanoutFetch s rest e' := by
  simp [fanoutFetch, hstop, runWrappedFetch, hrun]

/-- Fan-out steps over a listener that throws: the shim records the error in
`#wrappedError` and stops immediate propagation. -/
lemma fanoutFetch_cons_err (s : ScopeState) (w : Nat) (l : FetchListener)
    (rest : List (Nat × FetchListener)) (e e' : FetchEvent) (err : JSError)
    (hstop : e.stopImmediate = false)
    (hrun : runFetchActions (l.run e) e = (e', some err)) :
    fanoutFetch s ((w, l) :: rest) e =
      fanoutFetch { s with wrappedError := some err } rest
        { e' with stopImmediate := true } := by
  simp [fanoutFetch, hstop, runWrappedFetch, hrun]

/-- Scheduled fan-out skips listeners once the stop flag is set. -/
lemma fanoutSched_stop (s : ScopeState) (reg : List (Nat × SchedListener))
    (e : ScheduledEvent) (h : e.stopImmediate = true) :
    fanoutSched s reg e = (s, e) := by
  cases reg with
  | nil => rfl
  | cons q rest => cases q; simp [fanoutSched, h]

/-- Scheduled fan-out steps over a listener that returns normally. -/
lemma fanoutSched_cons_ok (s : ScopeState) (w : Nat) (l : SchedListener)
    (rest : List (Nat × SchedListener)) (e e' : ScheduledEvent)
    (hstop : e.stopImmediate = false)
    (hrun : runSchedActions (l.run e) e = (e', none)) :
    fanoutSched s ((w, l) :: rest) e = fanoutSched s rest e' := by
  simp [fanoutSched, hstop, runWrappedSched, hrun]

/-- Scheduled listener actions never touch `scheduledTime` or `cron`. -/
lemma runSchedActions_fields (as : List SchedAction) (e : ScheduledEvent) :
    ((runSchedActions as e).1).scheduledTime = e.scheduledTime ∧
      ((runSchedActions as e).1).cron = e.cron := by
  induction as generalizing e with
  | nil => exact ⟨rfl, rfl⟩
  | cons a rest ih =>
    cases a with
    | waitUntil p =>
      simp only [runSchedActions, ScheduledEvent.waitUntil]
      exact ih _
    | throwErr err => exact ⟨rfl, rfl⟩

/-- The scheduled fan-out never changes `scheduledTime` or `cron`. -/
lemma fanoutSched_fields (s : ScopeState) (reg : List (Nat × SchedListener))
    (e : ScheduledEvent) :
    ((fanoutSched s reg e).2).scheduledTime = e.scheduledTime ∧
      ((fanoutSched s reg e).2).cron = e.cron := by
  induction reg generalizing s e with
  | nil => exact ⟨rfl, rfl⟩
  | cons q rest ih =>
    cases q with
    | mk w l =>
      by_cases hstop : e.stopImmediate
      · rw [fanoutSched_stop _ _ _ hstop]
        exact ⟨rfl, rfl⟩
      · simp only [fanoutSched, hstop, if_neg, Bool.false_eq_true, if_false]
        rcases hw : runWrappedSched s l e with ⟨s', e'⟩
        have hfields : e'.scheduledTime = e.scheduledTime ∧ e'.cron = e.cron := by
          rcases hr : runSchedActions (l.run e) e with ⟨e0, oerr⟩
          have h0 : e0.scheduledTime = e.scheduledTime ∧ e0.cron = e.cron := by
            have := runSchedActions_fields (l.run e) e
            rwa [hr] at this
          cases oerr with
          | none =>
            simp only [runWrappedSched, hr] at hw
            cases hw
            exact h0
          | some err =>
            simp only [runWrappedSched, hr] at hw
            cases hw
            exact h0
        rcases ih s' e' with ⟨iht, ihc⟩
        rw [iht, ihc, hfields.1, hfields.2]
        exact ⟨rfl, rfl⟩

/-- `[kDispatchScheduled]` delivers the defaulted time and cron on the event. -/
lemma kDispatchScheduled_fields (s : ScopeState) (now : Int)
    (st : Option Int) (c : Option String) :
    ((kDispatchScheduled s now st c).2.1).scheduledTime = st.getD now ∧
      ((kDispatchScheduled s now st c).2.1).cron = c.getD "" := by
  simp only [kDispatchScheduled, hashDispatchSchedEvent]
  rcases hf : fanoutSched { s with wrappedError := none }
      ({ s with wrappedError := none } : ScopeState).schedRegistry
      (ScheduledEvent.new (st.getD now) (c.getD "")) with ⟨s1, e1⟩
  have := fanoutSched_fields { s with wrappedError := none }
      ({ s with wrappedError := none } : ScopeState).schedRegistry
      (ScheduledEvent.new (st.getD now) (c.getD ""))
  rw [hf] at this
  cases hwe : s1.wrappedError <;> simpa [hwe, ScheduledEvent.new] using this

/-- Bound for folded maxima: the seed and every element stay below the fold. -/
lemma le_foldl_max (l : List Nat) (a : Nat) :
    a ≤ l.foldl max a ∧ ∀ x ∈ l, x ≤ l.foldl max a := by
  induction l generalizing a with
  | nil => simp
  | cons y t ih =>
    refine ⟨le_trans (le_max_left a y) (ih (max a y)).1, ?_⟩
    intro x hx
    rcases List.mem_cons.mp hx with rfl | hx
    · exact le_trans (le_max_right a x) (ih (max a x)).1
    · exact (ih (max a y)).2 x hx

/-- Every member of a promise list settles no later than `maxSettleTime`. -/
lemma settleTime_le_maxSettleTime {α : Type} (ps : List (JSPromise α))
    (p : JSPromise α) (hp : p ∈ ps) :
    p.settleTime ≤ maxSettleTime ps :=
  (le_foldl_max (ps.map JSPromise.settleTime) 0).2 p.settleTime
    (List.mem_map_of_mem JSPromise.settleTime hp)

/-- When a fetch dispatch returns a response, the attached background future
is `Promise.all` of the event's accumulated `[kWaitUntil]` list. -/
lemma kDispatchFetch_ok_waitUntil (s : ScopeState)
    (up : Request → JSPromise Response) (req : Request) (proxy : Bool)
    (r : Response) (wu : JSPromise (List JSValue))
    (h : (kDispatchFetch s up req proxy).2.2 = .ok (r, wu)) :
    wu = promiseAll ((kDispatchFetch s up req proxy).2.1).kWaitUntil := by
  rcases hd : hashDispatchFetchEvent s
      (FetchEvent.new (if proxy then req.clone else req)) with ⟨s1, e1, derr⟩
  simp only [kDispatchFetch, hd, dispatchFetchCatch] at h ⊢
  cases derr with
  | some err =>
    by_cases hpt : e1.kPassThrough
    · cases proxy with
      | false => simp [hpt] at h
      | true =>
        cases hup : (up (req.deleteHeader "host")).result with
        | error err2 => simp [hpt, hup] at h
        | ok rr =>
          simp only [hpt, if_true, Bool.not_true, Bool.false_eq_true, if_false, hup] at h ⊢
          rcases Prod.mk.injEq .. ▸ (Except.ok.injEq .. ▸ h) with ⟨h1, h2⟩
          exact h2.symm
    · simp [hpt] at h
  | none =>
    cases hkr : e1.kResponse with
    | none =>
      cases proxy with
      | false => simp [hkr] at h
      | true =>
        cases hup : (up (req.deleteHeader "host")).result with
        | error err2 => simp [hkr, hup] at h
        | ok rr =>
          simp only [hkr, Bool.not_true, Bool.false_eq_true, if_false, hup] at h ⊢
          rcases Prod.mk.injEq .. ▸ (Except.ok.injEq .. ▸ h) with ⟨h1, h2⟩
          exact h2.symm
    | some p =>
      cases hpr : p.result with
      | error err =>
        by_cases hpt : e1.kPassThrough
        · cases proxy with
          | false => simp [hkr, hpr, hpt] at h
          | true =>
            cases hup : (up (req.deleteHeader "host")).result with
            | error err2 => simp [hkr, hpr, hpt, hup] at h
            | ok rr =>
              simp only [hkr, hpr, hpt, if_true, Bool.not_true, Bool.false_eq_true,
                if_false, hup] at h ⊢
              rcases Prod.mk.injEq .. ▸ (Except.ok.injEq .. ▸ h) with ⟨h1, h2⟩
              exact h2.symm
        · simp [hkr, hpr, hpt] at h
      | ok resp =>
        simp only [hkr, hpr] at h ⊢
        rcases Prod.mk.injEq .. ▸ (Except.ok.injEq .. ▸ h) with ⟨h1, h2⟩
        exact h2.symm

/-- Every exit path of `[kDispatchFetch]` runs the `finally` step that sets
the event's `[kSent]` window-closed flag. -/
lemma kDispatchFetch_kSent (s : ScopeState) (up : Request → JSPromise Response)
    (req : Request) (proxy : Bool) :
    ((kDispatchFetch s up req proxy).2.1).kSent = true := by
  rcases hd : hashDispatchFetchEvent s
      (FetchEvent.new (if proxy then req.clone else req)) with ⟨s1, e1, derr⟩
  simp only [kDispatchFetch, hd, dispatchFetchCatch]
  cases derr with
  | some err =>
    by_cases hpt : e1.kPassThrough
    · cases proxy with
      | false => simp [hpt]
      | true =>
        cases hup : (up (req.deleteHeader "host")).result <;> simp [hpt, hup]
    · simp [hpt]
  | none =>
    cases hkr : e1.kResponse with
    | none =>
      cases proxy with
      | false => simp [hkr]
      | true =>
        cases hup : (up (req.deleteHeader "host")).result <;> simp [hkr, hup]
    | some p =>
      cases hpr : p.result with
      | error err =>
        by_cases hpt : e1.kPassThrough
        · cases proxy with
          | false => simp [hkr, hpr, hpt]
          | true =>
            cases hup : (up (req.deleteHeader "host")).result <;>
              simp [hkr, hpr, hpt, hup]
        · simp [hkr, hpr, hpt]
      | ok resp => simp [hkr, hpr]

/-! ## Concrete fixtures used by witnesses and counterexamples -/

/-- A sample inbound request. -/
def reqX : Request :=
  ⟨"http://worker.local/path", [("Host", "worker.local"), ("Accept", "text/html")]⟩

/-- A sample response. -/
def respX : Response := ⟨"hello"⟩

/-- A sample upstream/fallback forwarder. -/
def upstreamX : Request → JSPromise Response :=
  fun r => JSPromise.resolved ⟨"upstream:" ++ r.url⟩

/-- A `FetchEvent` that already stores a response. -/
def eRespX : FetchEvent :=
  { FetchEvent.new reqX with kResponse := some (JSPromise.resolved respX) }

/-- A `FetchEvent` whose dispatch window has closed. -/
def eSentX : FetchEvent := { FetchEvent.new reqX with kSent := true }

/-! ## Claim theorems -/

/-- C1: `respondWith` succeeds at most once per `FetchEvent` and only while
the dispatch window is open: with a response already stored, or with the
window-closed flag set, the call throws an `InvalidStateError` and returns
the event unchanged (so the stored response is untouched); and every exit
path of `[kDispatchFetch]`, error paths included, leaves the event with the
window-closed flag set. -/
theorem respondWith_once_and_window_closes :
    (∀ (e : FetchEvent) (r : JSPromise Response), e.kResponse.isSome = true →
      FetchEvent.respondWith e r =
        (e, some (.domException respondWithTwiceMessage "InvalidStateError"))) ∧
    (∀ (e : FetchEvent) (r : JSPromise Response), e.kResponse = none →
      e.kSent = true →
      FetchEvent.respondWith e r =
        (e, some (.domException respondWithLateMessage "InvalidStateError"))) ∧
    (∀ (s : ScopeState) (up : Request → JSPromise Response) (req : Request)
      (proxy : Bool), ((kDispatchFetch s up req proxy).2.1).kSent = true) := by
  refine ⟨?_, ?_, ?_⟩
  · intro e r h
    simp [FetchEvent.respondWith, h]
  · intro e r h1 h2
    simp [FetchEvent.respondWith, h1, h2]
  · intro s up req proxy
    exact kDispatchFetch_kSent s up req proxy

/-- Witness for C1 at concrete inputs. -/
theorem respondWith_once_and_window_closes_witness :
    FetchEvent.respondWith eRespX (JSPromise.resolved ⟨"other"⟩) =
      (eRespX, some (.domException respondWithTwiceMessage "InvalidStateError")) ∧
    FetchEvent.respondWith eSentX (JSPromise.resolved ⟨"other"⟩) =
      (eSentX, some (.domException respondWithLateMessage "InvalidStateError")) ∧
    ((kDispatchFetch (ScopeState.empty false) upstreamX reqX true).2.1).kSent = true :=
  ⟨respondWith_once_and_window_closes.1 eRespX (JSPromise.resolved ⟨"other"⟩) rfl,
   respondWith_once_and_window_closes.2.1 eSentX (JSPromise.resolved ⟨"other"⟩) rfl rfl,
   respondWith_once_and_window_closes.2.2 (ScopeState.empty false) upstreamX reqX true⟩

/-- C7: in modules addressing mode, `addEventListener`, `removeEventListener`
and `dispatchEvent` (for either event type) throw the configuration
`TypeError` before doing anything: no updated state is produced, so the
listener registry and the event are untouched. -/
theorem modules_mode_disables_imperative_api (s : ScopeState)
    (h : s.modules = true) :
    (∀ l, addEventListenerFetch s l = .error (.typeError modulesAddMessage)) ∧
    (∀ l, addEventListenerSched s l = .error (.typeError modulesAddMessage)) ∧
    (∀ l, removeEventListenerFetch s l = .error (.typeError modulesRemoveMessage)) ∧
    (∀ l, removeEventListenerSched s l = .error (.typeError modulesRemoveMessage)) ∧
    (∀ e, dispatchEventFetch s e = .error (.typeError modulesDispatchMessage)) ∧
    (∀ e, dispatchEventSched s e = .error (.typeError modulesDispatchMessage)) := by
  refine ⟨?_, ?_, ?_, ?_, ?_, ?_⟩ <;> intro x <;>
    simp [addEventListenerFetch, addEventListenerSched, removeEventListenerFetch,
      removeEventListenerSched, dispatchEventFetch, dispatchEventSched, h]

/-- Witness for C7 at concrete inputs. -/
theorem modules_mode_disables_imperative_api_witness :
    addEventListenerFetch (ScopeState.empty true) none =
      .error (.typeError modulesAddMessage) ∧
    removeEventListenerFetch (ScopeState.empty true) none =
      .error (.typeError modulesRemoveMessage) ∧
    dispatchEventFetch (ScopeState.empty true) (FetchEvent.new reqX) =
      .error (.typeError modulesDispatchMessage) ∧
    dispatchEventSched (ScopeState.empty true) (ScheduledEvent.new 0 "") =
      .error (.typeError modulesDispatchMessage) :=
  ⟨(modules_mode_disables_imperative_api (ScopeState.empty true) rfl).1 none,
   (modules_mode_disables_imperative_api (ScopeState.empty true) rfl).2.2.1 none,
   (modules_mode_disables_imperative_api (ScopeState.empty true) rfl).2.2.2.2.1
     (FetchEvent.new reqX),
   (modules_mode_disables_imperative_api (ScopeState.empty true) rfl).2.2.2.2.2
     (ScheduledEvent.new 0 "")⟩

/-- Appending a fresh binding to the `WeakMap` makes it the lookup result. -/
lemma lookupWrap_append (m : List (Nat × Nat)) (id n : Nat)
    (h : lookupWrap m id = none) :
    lookupWrap (m ++ [(id, n)]) id = some n := by
  induction m with
  | nil => simp [lookupWrap]
  | cons q rest ih =>
    cases q with
    | mk k v =>
      by_cases hk : k = id
      · rw [lookupWrap, if_pos hk] at h
        exact absurd h (by simp)
      · rw [lookupWrap, if_neg hk] at h
        rw [List.cons_append, lookupWrap, if_neg hk]
        exact ih h

/-- After `#wrap`, the `WeakMap` resolves the listener to the shim just
produced. -/
lemma wrapId_lookup (s : ScopeState) (id : Nat) :
    lookupWrap ((wrapId s id).1).wrapMap id = some ((wrapId s id).2) := by
  cases hl : lookupWrap s.wrapMap id with
  | some w => simp [wrapId, hl]
  | none => simp [wrapId, hl, lookupWrap_append s.wrapMap id s.nextWrapId hl]

/-- `#wrap` is memoized: wrapping the same listener identity a second time
returns the same shim identity and leaves the state unchanged. -/
lemma wrapId_idem (s : ScopeState) (id : Nat) :
    wrapId ((wrapId s id).1) id = ((wrapId s id).1, (wrapId s id).2) := by
  have h := wrapId_lookup s id
  generalize hX : wrapId s id = X at h ⊢
  cases X with
  | mk s' w =>
    simp only at h
    simp [wrapId, h]

/-- `#wrap` only touches the `WeakMap` and the shim counter. -/
lemma wrapId_frame (s : ScopeState) (id : Nat) :
    ((wrapId s id).1).modules = s.modules ∧
      ((wrapId s id).1).fetchRegistry = s.fetchRegistry ∧
      ((wrapId s id).1).schedRegistry = s.schedRegistry := by
  cases hl : lookupWrap s.wrapMap id <;> simp [wrapId, hl]

/-- `#wrap` is insensitive to the listener registry component. -/
lemma wrapId_set_registry (s : ScopeState) (id : Nat)
    (reg : List (Nat × FetchListener)) :
    wrapId { s with fetchRegistry := reg } id =
      ({ (wrapId s id).1 with fetchRegistry := reg }, (wrapId s id).2) := by
  cases hl : lookupWrap s.wrapMap id <;> simp [wrapId, hl]


/-- Unfolding of a fresh registration: the shim is appended. -/
lemma hashAddFetch_fresh (t s' : ScopeState) (l : FetchListener) (w : Nat)
    (hwt : wrapId t l.id = (s', w))
    (hc : ((s'.fetchRegistry.map Prod.fst).contains w) = false) :
    hashAddFetch t (some l) =
      { s' with fetchRegistry := s'.fetchRegistry ++ [(w, l)] } := by
  simp only [hashAddFetch, superAddFetch, hwt, hc, Bool.false_eq_true, if_false]

/-- Unfolding of a duplicate registration: `EventTarget` ignores it. -/
lemma hashAddFetch_dup (t s' : ScopeState) (l : FetchListener) (w : Nat)
    (hwt : wrapId t l.id = (s', w))
    (hc : ((s'.fetchRegistry.map Prod.fst).contains w) = true) :
    hashAddFetch t (some l) = s' := by
  simp only [hashAddFetch, superAddFetch, hwt, hc, if_true]

/-- Unfolding of `removeEventListener` outside modules mode: the re-wrapped
shim identity is filtered out of the registry. -/
lemma removeEventListenerFetch_ok (t s' : ScopeState) (l : FetchListener) (w : Nat)
    (hm : t.modules = false) (hwt : wrapId t l.id = (s', w)) :
    removeEventListenerFetch t (some l) =
      .ok { s' with fetchRegistry := s'.fetchRegistry.filter fun q => q.1 ≠ w } := by
  simp only [removeEventListenerFetch, hm, Bool.false_eq_true, if_false, hwt]

/-- C8: the error-capturing wrap is memoized per listener identity: wrapping
the same listener reference twice yields the same shim and leaves the state
unchanged; registering the same listener twice through `addEventListener`'s
wrap appends a single registry entry, the second add being a no-op; and
`removeEventListener` with the same reference re-resolves the memoized shim
and removes exactly the entry the add registered, restoring the registry. -/
theorem wrap_memoized_add_remove (s : ScopeState) (l : FetchListener)
    (hm : s.modules = false)
    (hfresh : (s.fetchRegistry.map Prod.fst).contains (wrapId s l.id).2 = false) :
    wrapId ((wrapId s l.id).1) l.id = ((wrapId s l.id).1, (wrapId s l.id).2) ∧
    addEventListenerFetch s (some l) = .ok (hashAddFetch s (some l)) ∧
    (hashAddFetch s (some l)).fetchRegistry =
      s.fetchRegistry ++ [((wrapId s l.id).2, l)] ∧
    hashAddFetch (hashAddFetch s (some l)) (some l) = hashAddFetch s (some l) ∧
    removeEventListenerFetch (hashAddFetch s (some l)) (some l) =
      .ok { hashAddFetch s (some l) with fetchRegistry := s.fetchRegistry } := by
  have hidem := wrapId_idem s l.id
  have hframe := wrapId_frame s l.id
  rcases hw : wrapId s l.id with ⟨s', w⟩
  rw [hw] at hidem hframe hfresh
  simp only at hidem hframe hfresh
  obtain ⟨hmod', hreg', -⟩ := hframe
  have hcontains : (s'.fetchRegistry.map Prod.fst).contains w = false := by
    rw [hreg']; exact hfresh
  have hA := hashAddFetch_fresh s s' l w hw hcontains
  rw [hreg'] at hA
  have hwA : wrapId { s' with fetchRegistry := s.fetchRegistry ++ [(w, l)] } l.id =
      ({ s' with fetchRegistry := s.fetchRegistry ++ [(w, l)] }, w) := by
    have hset := wrapId_set_registry s' l.id (s.fetchRegistry ++ [(w, l)])
    simp only [hidem] at hset
    exact hset
  have hnotmem : ∀ q ∈ s.fetchRegistry, q.1 ≠ w := by
    intro q hq hqe
    have hwnm : w ∉ s.fetchRegistry.map Prod.fst := by simpa using hfresh
    exact hwnm (hqe ▸ List.mem_map_of_mem Prod.fst hq)
  have hfilter : (s.fetchRegistry ++ [(w, l)]).filter (fun q => q.1 ≠ w) =
      s.fetchRegistry := by
    rw [List.filter_append]
    have h1 : s.fetchRegistry.filter (fun q => q.1 ≠ w) = s.fetchRegistry := by
      rw [List.filter_eq_self]
      intro a ha
      simpa using hnotmem a ha
    have h2 : ([(w, l)] : List (Nat × FetchListener)).filter (fun q => q.1 ≠ w) =
        [] := by simp
    rw [h1, h2, List.append_nil]
  refine ⟨by simp only [hw]; exact hidem, by simp [addEventListenerFetch, hm],
    by simp [hA, hw], ?_, ?_⟩
  · rw [hA]
    rw [hashAddFetch_dup _ _ l w hwA (by simp)]
  · rw [hA, removeEventListenerFetch_ok _ _ l w (by simp [hmod', hm]) hwA]
    have hfe : ({ s' with fetchRegistry := s.fetchRegistry ++ [(w, l)] } :
        ScopeState).fetchRegistry.filter (fun q => q.1 ≠ w) = s.fetchRegistry :=
      hfilter
    rw [hfe]

/-- A trivial fetch listener used by the C8 witness. -/
def lNoop : FetchListener := ⟨81, fun _ => []⟩

/-- Witness for C8 at concrete inputs. -/
theorem wrap_memoized_add_remove_witness :
    removeEventListenerFetch (hashAddFetch (ScopeState.empty false) (some lNoop))
        (some lNoop) =
      .ok { hashAddFetch (ScopeState.empty false) (some lNoop) with
              fetchRegistry := (ScopeState.empty false).fetchRegistry } :=
  (wrap_memoized_add_remove (ScopeState.empty false) lNoop rfl rfl).2.2.2.2

/-- A scheduled listener that reports the event's delivered `scheduledTime`
and `cron` through `waitUntil` payloads. -/
def probeSched (i : Nat) : SchedListener :=
  ⟨i, fun e => [.waitUntil ⟨0, .ok (.num e.scheduledTime)⟩,
                .waitUntil ⟨0, .ok (.str e.cron)⟩]⟩

/-- C6: `[kDispatchScheduled]` builds the event from the caller-supplied or
defaulted arguments (clock time and empty cron when omitted), delivers
exactly those values to listeners (observed here through a probe listener's
`waitUntil` payloads), and resolves to the background-task results in
`waitUntil` call order. -/
theorem dispatchScheduled_defaults_delivery_order (s : ScopeState) (now : Int)
    (st : Option Int) (c : Option String) :
    (((kDispatchScheduled s now st c).2.1).scheduledTime = st.getD now ∧
      ((kDispatchScheduled s now st c).2.1).cron = c.getD "") ∧
    (∀ (w i : Nat), s.schedRegistry = [(w, probeSched i)] →
      (kDispatchScheduled s now st c).2.2 =
        .ok [.num (st.getD now), .str (c.getD "")]) ∧
    (∀ vs, (kDispatchScheduled s now st c).2.2 = .ok vs →
      vs = fulfilledValues ((kDispatchScheduled s now st c).2.1).kWaitUntil) := by
  refine ⟨kDispatchScheduled_fields s now st c, ?_, ?_⟩
  · intro w i hreg
    have he0 : (ScheduledEvent.new (st.getD now) (c.getD "")).stopImmediate =
        false := rfl
    have hrun : runSchedActions
        ((probeSched i).run (ScheduledEvent.new (st.getD now) (c.getD "")))
        (ScheduledEvent.new (st.getD now) (c.getD "")) =
        ({ ScheduledEvent.new (st.getD now) (c.getD "") with
             kWaitUntil := [⟨0, .ok (.num (st.getD now))⟩,
                            ⟨0, .ok (.str (c.getD ""))⟩] }, none) := rfl
    have hfan : fanoutSched { s with wrappedError := none }
        ({ s with wrappedError := none } : ScopeState).schedRegistry
        (ScheduledEvent.new (st.getD now) (c.getD "")) =
        ({ s with wrappedError := none },
         { ScheduledEvent.new (st.getD now) (c.getD "") with
             kWaitUntil := [⟨0, .ok (.num (st.getD now))⟩,
                            ⟨0, .ok (.str (c.getD ""))⟩] }) := by
      show fanoutSched { s with wrappedError := none }
          ({ s with wrappedError := none } : ScopeState).schedRegistry
          (ScheduledEvent.new (st.getD now) (c.getD "")) = _
      have : ({ s with wrappedError := none } : ScopeState).schedRegistry =
          [(w, probeSched i)] := hreg
      rw [this, fanoutSched_cons_ok _ _ _ _ _ _ he0 hrun]
      rfl
    simp only [kDispatchScheduled, hashDispatchSchedEvent, hfan]
    rfl
  · intro vs hok
    rcases hf : fanoutSched { s with wrappedError := none }
        ({ s with wrappedError := none } : ScopeState).schedRegistry
        (ScheduledEvent.new (st.getD now) (c.getD "")) with ⟨s1, e1⟩
    simp only [kDispatchScheduled, hashDispatchSchedEvent, hf] at hok ⊢
    cases hwe : s1.wrappedError with
    | some err => simp [hwe] at hok
    | none =>
      simp only [hwe] at hok ⊢
      simp only [promiseAll] at hok ⊢
      cases hfr : firstRejection e1.kWaitUntil with
      | some te => rcases te with ⟨t, err⟩; simp [hfr] at hok
      | none =>
        simp only [hfr] at hok
        simp only [Except.ok.injEq] at hok
        exact hok.symm

/-- The event handed to listeners is built from the (cloned when proxying)
request; cloning copies the value. -/
lemma ifCloneEq (req : Request) (proxy : Bool) :
    (if proxy then req.clone else req) = req := by
  cases proxy <;> simp [Request.clone_self]

/-- `[kDispatchFetch]` when `#dispatchEvent` threw and pass-through is not
set: the `catch` rethrows the listener's error after the `finally` closes
the window. -/
lemma kDispatchFetch_thrown (s s1 : ScopeState) (e1 : FetchEvent)
    (err : JSError) (up : Request → JSPromise Response) (req : Request)
    (proxy : Bool)
    (hd : hashDispatchFetchEvent s (FetchEvent.new req) = (s1, e1, some err))
    (hpt : e1.kPassThrough = false) :
    kDispatchFetch s up req proxy = (s1, { e1 with kSent := true }, .error err) := by
  simp only [kDispatchFetch, ifCloneEq, Request.clone_self, ite_self, hd, dispatchFetchCatch, hpt,
    Bool.false_eq_true, if_false]

/-- `[kDispatchFetch]` when `#dispatchEvent` threw, pass-through is set and
there is no upstream: one warning is logged and the unhandled-request
`TypeError` is thrown. -/
lemma kDispatchFetch_passthrough_noproxy (s s1 : ScopeState) (e1 : FetchEvent)
    (err : JSError) (up : Request → JSPromise Response) (req : Request)
    (hd : hashDispatchFetchEvent s (FetchEvent.new req) = (s1, e1, some err))
    (hpt : e1.kPassThrough = true) :
    kDispatchFetch s up req false =
      ({ s1 with warnings := s1.warnings ++ [err] }, { e1 with kSent := true },
       .error unhandledRequestError) := by
  simp only [kDispatchFetch, ifCloneEq, Request.clone_self, ite_self, hd, dispatchFetchCatch, hpt, if_true,
    Bool.not_false, Bool.false_eq_true, if_false]

/-- `[kDispatchFetch]` when `#dispatchEvent` threw, pass-through is set and
the upstream fulfils: one warning is logged and the fallback's response for
the host-header-stripped request is returned with the background future. -/
lemma kDispatchFetch_passthrough_proxy (s s1 : ScopeState) (e1 : FetchEvent)
    (err : JSError) (up : Request → JSPromise Response) (req : Request)
    (t : Nat) (r : Response)
    (hd : hashDispatchFetchEvent s (FetchEvent.new req) = (s1, e1, some err))
    (hpt : e1.kPassThrough = true)
    (hup : up (req.deleteHeader "host") = ⟨t, .ok r⟩) :
    kDispatchFetch s up req true =
      ({ s1 with warnings := s1.warnings ++ [err] }, { e1 with kSent := true },
       .ok (r, promiseAll e1.kWaitUntil)) := by
  simp only [kDispatchFetch, ifCloneEq, Request.clone_self, ite_self, hd, dispatchFetchCatch, hpt, if_true,
    Bool.not_true, Bool.false_eq_true, if_false, hup]

/-- `[kDispatchFetch]` when dispatch completed and the stored response
fulfils: the response and the background future are returned. -/
lemma kDispatchFetch_responded (s s1 : ScopeState) (e1 : FetchEvent)
    (p : JSPromise Response) (r : Response) (up : Request → JSPromise Response)
    (req : Request) (proxy : Bool)
    (hd : hashDispatchFetchEvent s (FetchEvent.new req) = (s1, e1, none))
    (hkr : e1.kResponse = some p)
    (hpr : p.result = .ok r) :
    kDispatchFetch s up req proxy =
      (s1, { e1 with kSent := true }, .ok (r, promiseAll e1.kWaitUntil)) := by
  simp only [kDispatchFetch, ifCloneEq, Request.clone_self, ite_self, hd, hkr, hpr]

/-- `[kDispatchFetch]` when dispatch completed but the awaited response
rejects and pass-through is set, with no upstream: warn once, then throw the
unhandled-request `TypeError`. -/
lemma kDispatchFetch_async_reject_noproxy (s s1 : ScopeState) (e1 : FetchEvent)
    (p : JSPromise Response) (err : JSError) (up : Request → JSPromise Response)
    (req : Request)
    (hd : hashDispatchFetchEvent s (FetchEvent.new req) = (s1, e1, none))
    (hkr : e1.kResponse = some p)
    (hpr : p.result = .error err)
    (hpt : e1.kPassThrough = true) :
    kDispatchFetch s up req false =
      ({ s1 with warnings := s1.warnings ++ [err] }, { e1 with kSent := true },
       .error unhandledRequestError) := by
  simp only [kDispatchFetch, ifCloneEq, Request.clone_self, ite_self, hd, hkr, hpr, dispatchFetchCatch, hpt,
    if_true, Bool.not_false, Bool.false_eq_true, if_false]

/-- `[kDispatchFetch]` when dispatch completed but the awaited response
rejects and pass-through is set, with a fulfilling upstream: warn once, then
return the fallback's response for the host-header-stripped request. -/
lemma kDispatchFetch_async_reject_proxy (s s1 : ScopeState) (e1 : FetchEvent)
    (p : JSPromise Response) (err : JSError) (up : Request → JSPromise Response)
    (req : Request) (t : Nat) (r : Response)
    (hd : hashDispatchFetchEvent s (FetchEvent.new req) = (s1, e1, none))
    (hkr : e1.kResponse = some p)
    (hpr : p.result = .error err)
    (hpt : e1.kPassThrough = true)
    (hup : up (req.deleteHeader "host") = ⟨t, .ok r⟩) :
    kDispatchFetch s up req true =
      ({ s1 with warnings := s1.warnings ++ [err] }, { e1 with kSent := true },
       .ok (r, promiseAll e1.kWaitUntil)) := by
  simp only [kDispatchFetch, ifCloneEq, Request.clone_self, ite_self, hd, hkr, hpr, dispatchFetchCatch, hpt,
    if_true, Bool.not_true, Bool.false_eq_true, if_false, hup]

/-- `#dispatchEvent` when the first registered fetch listener throws: the
shim records the error and stops propagation, so the remaining listeners
(whatever they are) never run, and the error is rethrown. -/
lemma hashDispatch_head_throw (s : ScopeState) (w : Nat) (l : FetchListener)
    (rest : List (Nat × FetchListener)) (req : Request) (e1 : FetchEvent)
    (err : JSError)
    (hreg : s.fetchRegistry = (w, l) :: rest)
    (h1 : runFetchActions (l.run (FetchEvent.new req)) (FetchEvent.new req) =
      (e1, some err)) :
    hashDispatchFetchEvent s (FetchEvent.new req) =
      ({ s with wrappedError := some err }, { e1 with stopImmediate := true },
       some err) := by
  simp only [hashDispatchFetchEvent]
  rw [show ({ s with wrappedError := none } : ScopeState).fetchRegistry =
    (w, l) :: rest from hreg]
  rw [fanoutFetch_cons_err _ _ _ _ _ _ _ rfl h1]
  rw [fanoutFetch_stop _ _ _ rfl]

/-- `#dispatchEvent` when the single registered fetch listener returns
normally: no captured error, the event carries the listener's mutations. -/
lemma hashDispatch_single_ok (s : ScopeState) (w : Nat) (l : FetchListener)
    (req : Request) (e1 : FetchEvent)
    (hreg : s.fetchRegistry = [(w, l)])
    (h1 : runFetchActions (l.run (FetchEvent.new req)) (FetchEvent.new req) =
      (e1, none)) :
    hashDispatchFetchEvent s (FetchEvent.new req) =
      ({ s with wrappedError := none }, e1, none) := by
  simp only [hashDispatchFetchEvent]
  rw [show ({ s with wrappedError := none } : ScopeState).fetchRegistry =
    [(w, l)] from hreg]
  rw [fanoutFetch_cons_ok _ _ _ _ _ _ rfl h1]
  rfl

/-- `#dispatchEvent` when the first listener returns normally and the second
calls `respondWith(p)`: the response is stored, propagation stops, and every
later listener (whatever it is) never runs. -/
lemma hashDispatch_respond_second (s : ScopeState) (w1 w2 : Nat)
    (l1 l2 : FetchListener) (rest : List (Nat × FetchListener)) (req : Request)
    (e1 : FetchEvent) (p : JSPromise Response)
    (hreg : s.fetchRegistry = (w1, l1) :: (w2, l2) :: rest)
    (h1 : runFetchActions (l1.run (FetchEvent.new req)) (FetchEvent.new req) =
      (e1, none))
    (hstop : e1.stopImmediate = false)
    (hkr : e1.kResponse = none)
    (hl2 : l2.run e1 = [.respondWith p]) :
    hashDispatchFetchEvent s (FetchEvent.new req) =
      ({ s with wrappedError := none },
       { e1 with stopImmediate := true, kResponse := some p }, none) := by
  have hsent : e1.kSent = false := by
    have hk := runFetchActions_kSent (l1.run (FetchEvent.new req))
      (FetchEvent.new req)
    rw [h1] at hk
    exact hk
  have hrun2 : runFetchActions (l2.run e1) e1 =
      ({ e1 with stopImmediate := true, kResponse := some p }, none) := by
    rw [hl2]
    simp [runFetchActions, FetchEvent.respondWith, hkr, hsent]
  simp only [hashDispatchFetchEvent]
  rw [show ({ s with wrappedError := none } : ScopeState).fetchRegistry =
    (w1, l1) :: (w2, l2) :: rest from hreg]
  rw [fanoutFetch_cons_ok _ _ _ _ _ _ rfl h1]
  rw [fanoutFetch_cons_ok _ _ _ _ _ _ hstop hrun2]
  rw [fanoutFetch_stop _ _ _ rfl]

/-- C3: when a fetch listener throws after `passThroughOnException()` was
called on the event, exactly one warning is appended to the log and dispatch
proceeds as if unhandled: with no fallback the unhandled-request `TypeError`
is thrown (not the handler's error); with a proxy fallback whose forward of
the host-header-stripped original request fulfils, dispatch resolves to the
fallback's response. -/
theorem passthrough_sync_throw_fallback (s : ScopeState)
    (up : Request → JSPromise Response) (req : Request) (w : Nat)
    (l : FetchListener) (rest : List (Nat × FetchListener)) (e1 : FetchEvent)
    (err : JSError)
    (hreg : s.fetchRegistry = (w, l) :: rest)
    (h1 : runFetchActions (l.run (FetchEvent.new req)) (FetchEvent.new req) =
      (e1, some err))
    (hpt : e1.kPassThrough = true) :
    ((kDispatchFetch s up req false).1.warnings = s.warnings ++ [err] ∧
     (kDispatchFetch s up req false).2.2 = .error unhandledRequestError) ∧
    (∀ (t : Nat) (r : Response), up (req.deleteHeader "host") = ⟨t, .ok r⟩ →
      (kDispatchFetch s up req true).1.warnings = s.warnings ++ [err] ∧
      (kDispatchFetch s up req true).2.2 = .ok (r, promiseAll e1.kWaitUntil)) := by
  have hd := hashDispatch_head_throw s w l rest req e1 err hreg h1
  have hpt' : ({ e1 with stopImmediate := true } : FetchEvent).kPassThrough =
      true := hpt
  refine ⟨?_, ?_⟩
  · rw [kDispatchFetch_passthrough_noproxy _ _ _ err up req hd hpt']
    exact ⟨rfl, rfl⟩
  · intro t r hup
    rw [kDispatchFetch_passthrough_proxy _ _ _ err up req t r hd hpt' hup]
    exact ⟨rfl, rfl⟩

/-- A listener that requests pass-through and then throws. -/
def boomErr : JSError := .jsError (.str "handler-boom")

/-- The listener body of the C3 witness. -/
def lPass : FetchListener := ⟨31, fun _ => [.passThroughOnException, .throwErr boomErr]⟩

/-- A scope with `lPass` as its only fetch listener. -/
def sPass : ScopeState := ⟨false, [], 0, [(0, lPass)], [], none, []⟩

/-- Witness for C3 at concrete inputs. -/
theorem passthrough_sync_throw_fallback_witness :
    ((kDispatchFetch sPass upstreamX reqX false).1.warnings = [] ++ [boomErr] ∧
     (kDispatchFetch sPass upstreamX reqX false).2.2 =
       .error unhandledRequestError) ∧
    (kDispatchFetch sPass upstreamX reqX true).2.2 =
      .ok (⟨"upstream:" ++ (reqX.deleteHeader "host").url⟩,
           promiseAll ({ FetchEvent.new reqX with
             kPassThrough := true } : FetchEvent).kWaitUntil) :=
  ⟨(passthrough_sync_throw_fallback sPass upstreamX reqX 0 lPass []
      { FetchEvent.new reqX with kPassThrough := true } boomErr rfl rfl rfl).1,
   ((passthrough_sync_throw_fallback sPass upstreamX reqX 0 lPass []
      { FetchEvent.new reqX with kPassThrough := true } boomErr rfl rfl rfl).2 0
      ⟨"upstream:" ++ (reqX.deleteHeader "host").url⟩ rfl).2⟩

/-- C5: when a fetch listener throws without `passThroughOnException` having
been called, `[kDispatchFetch]` rejects with that exact thrown value for
every upstream and proxy setting (so the fallback is never consulted), the
listeners registered after the throwing one are skipped (the observable
outcome is that of the registry truncated at the thrower), and no warning is
logged. -/
theorem listener_throw_rejects_dispatch (s : ScopeState) (req : Request)
    (w : Nat) (l : FetchListener) (rest : List (Nat × FetchListener))
    (e1 : FetchEvent) (err : JSError)
    (hreg : s.fetchRegistry = (w, l) :: rest)
    (h1 : runFetchActions (l.run (FetchEvent.new req)) (FetchEvent.new req) =
      (e1, some err))
    (hpt : e1.kPassThrough = false) :
    (∀ (up : Request → JSPromise Response) (proxy : Bool),
      (kDispatchFetch s up req proxy).2.2 = .error err) ∧
    (∀ (up : Request → JSPromise Response) (proxy : Bool),
      (kDispatchFetch s up req proxy).2 =
        (kDispatchFetch { s with fetchRegistry := [(w, l)] } up req proxy).2) ∧
    (∀ (up : Request → JSPromise Response) (proxy : Bool),
      (kDispatchFetch s up req proxy).1.warnings = s.warnings) := by
  have hd := hashDispatch_head_throw s w l rest req e1 err hreg h1
  have hd' := hashDispatch_head_throw { s with fetchRegistry := [(w, l)] } w l []
    req e1 err rfl h1
  have hpt' : ({ e1 with stopImmediate := true } : FetchEvent).kPassThrough =
      false := hpt
  refine ⟨?_, ?_, ?_⟩ <;> intro up proxy
  · rw [kDispatchFetch_thrown _ _ _ err up req proxy hd hpt']
  · rw [kDispatchFetch_thrown _ _ _ err up req proxy hd hpt',
      kDispatchFetch_thrown _ _ _ err up req proxy hd' hpt']
  · rw [kDispatchFetch_thrown _ _ _ err up req proxy hd hpt']

/-- The throwing listener of the C5 witness. -/
def lThrow : FetchListener := ⟨51, fun _ => [.throwErr boomErr]⟩

/-- A second listener that must never run in the C5 witness. -/
def lAfter : FetchListener := ⟨52, fun _ => [.waitUntil ⟨1, .ok (.num 9)⟩]⟩

/-- A scope with `lThrow` before `lAfter`. -/
def sThrow : ScopeState := ⟨false, [], 0, [(0, lThrow), (1, lAfter)], [], none, []⟩

/-- Witness for C5 at concrete inputs. -/
theorem listener_throw_rejects_dispatch_witness :
    (kDispatchFetch sThrow upstreamX reqX true).2.2 = .error boomErr :=
  (listener_throw_rejects_dispatch sThrow reqX 0 lThrow [(1, lAfter)]
    (FetchEvent.new reqX) boomErr rfl rfl rfl).1 upstreamX true

/-- C10: pass-through recovery also applies to asynchronous failure: when
the single listener returns normally but the promise it passed to
`respondWith` later rejects, and `passThroughOnException` was called, the
await inside the `try` throws into the same `catch` as a synchronous throw:
one warning is logged and dispatch proceeds to the fallback-or-unhandled
path instead of rejecting with that error. -/
theorem passthrough_async_reject_fallback (s : ScopeState)
    (up : Request → JSPromise Response) (req : Request) (w : Nat)
    (l : FetchListener) (e1 : FetchEvent) (p : JSPromise Response)
    (err : JSError)
    (hreg : s.fetchRegistry = [(w, l)])
    (h1 : runFetchActions (l.run (FetchEvent.new req)) (FetchEvent.new req) =
      (e1, none))
    (hkr : e1.kResponse = some p)
    (hpr : p.result = .error err)
    (hpt : e1.kPassThrough = true) :
    ((kDispatchFetch s up req false).1.warnings = s.warnings ++ [err] ∧
     (kDispatchFetch s up req false).2.2 = .error unhandledRequestError) ∧
    (∀ (t : Nat) (r : Response), up (req.deleteHeader "host") = ⟨t, .ok r⟩ →
      (kDispatchFetch s up req true).1.warnings = s.warnings ++ [err] ∧
      (kDispatchFetch s up req true).2.2 = .ok (r, promiseAll e1.kWaitUntil)) := by
  have hd := hashDispatch_single_ok s w l req e1 hreg h1
  refine ⟨?_, ?_⟩
  · rw [kDispatchFetch_async_reject_noproxy _ _ _ p err up req hd hkr hpr hpt]
    exact ⟨rfl, rfl⟩
  · intro t r hup
    rw [kDispatchFetch_async_reject_proxy _ _ _ p err up req t r hd hkr hpr
      hpt hup]
    exact ⟨rfl, rfl⟩

/-- The listener of the C10 witness: requests pass-through, then responds
with a promise that rejects at step 2. -/
def lAsync : FetchListener :=
  ⟨101, fun _ => [.passThroughOnException, .respondWith ⟨2, .error boomErr⟩]⟩

/-- A scope with `lAsync` as its only fetch listener. -/
def sAsync : ScopeState := ⟨false, [], 0, [(0, lAsync)], [], none, []⟩

/-- The event state `lAsync` leaves behind. -/
def eAsync : FetchEvent := ⟨reqX, some ⟨2, .error boomErr⟩, true, [], false, true⟩

/-- Witness for C10 at concrete inputs. -/
theorem passthrough_async_reject_fallback_witness :
    ((kDispatchFetch sAsync upstreamX reqX false).1.warnings =
       [] ++ [boomErr] ∧
     (kDispatchFetch sAsync upstreamX reqX false).2.2 =
       .error unhandledRequestError) ∧
    (kDispatchFetch sAsync upstreamX reqX true).2.2 =
      .ok (⟨"upstream:" ++ (reqX.deleteHeader "host").url⟩,
           promiseAll eAsync.kWaitUntil) :=
  ⟨(passthrough_async_reject_fallback sAsync upstreamX reqX 0 lAsync eAsync
      ⟨2, .error boomErr⟩ boomErr rfl rfl rfl rfl rfl).1,
   ((passthrough_async_reject_fallback sAsync upstreamX reqX 0 lAsync eAsync
      ⟨2, .error boomErr⟩ boomErr rfl rfl rfl rfl rfl).2 0
      ⟨"upstream:" ++ (reqX.deleteHeader "host").url⟩ rfl).2⟩

/-- C4: with listeners registered in order L1, L2, L3, if L1 returns
normally without responding or stopping propagation and L2 calls
`respondWith` with a promise that fulfils, then L3 is never invoked — the
dispatch outcome is identical to the one with only L1 and L2 registered —
and `[kDispatchFetch]` resolves to the response L2 supplied. -/
theorem second_responder_halts_dispatch (s : ScopeState)
    (up : Request → JSPromise Response) (req : Request) (proxy : Bool)
    (w1 w2 w3 : Nat) (l1 l2 l3 : FetchListener) (e1 : FetchEvent)
    (p : JSPromise Response) (r : Response)
    (hreg : s.fetchRegistry = [(w1, l1), (w2, l2), (w3, l3)])
    (h1 : runFetchActions (l1.run (FetchEvent.new req)) (FetchEvent.new req) =
      (e1, none))
    (hstop : e1.stopImmediate = false)
    (hkr : e1.kResponse = none)
    (hl2 : l2.run e1 = [.respondWith p])
    (hpr : p.result = .ok r) :
    (kDispatchFetch s up req proxy).2.2 = .ok (r, promiseAll e1.kWaitUntil) ∧
    (kDispatchFetch s up req proxy).2 =
      (kDispatchFetch { s with fetchRegistry := [(w1, l1), (w2, l2)] } up req
        proxy).2 ∧
    (kDispatchFetch s up req proxy).1.warnings =
      (kDispatchFetch { s with fetchRegistry := [(w1, l1), (w2, l2)] } up req
        proxy).1.warnings := by
  have hd := hashDispatch_respond_second s w1 w2 l1 l2 [(w3, l3)] req e1 p hreg
    h1 hstop hkr hl2
  have hd' := hashDispatch_respond_second
    { s with fetchRegistry := [(w1, l1), (w2, l2)] } w1 w2 l1 l2 [] req e1 p rfl
    h1 hstop hkr hl2
  have hkr2 : ({ e1 with stopImmediate := true, kResponse := some p } :
      FetchEvent).kResponse = some p := rfl
  rw [kDispatchFetch_responded _ _ _ p r up req proxy hd hkr2 hpr,
    kDispatchFetch_responded _ _ _ p r up req proxy hd' hkr2 hpr]
  exact ⟨rfl, rfl, rfl⟩

/-- L1 of the C4 witness: queues one background task. -/
def lFirst : FetchListener := ⟨41, fun _ => [.waitUntil ⟨3, .ok (.num 7)⟩]⟩

/-- L2 of the C4 witness: responds. -/
def lSecond : FetchListener := ⟨42, fun _ => [.respondWith (JSPromise.resolved respX)]⟩

/-- L3 of the C4 witness: must never run. -/
def lThird : FetchListener := ⟨43, fun _ => [.waitUntil ⟨1, .ok (.num 9)⟩]⟩

/-- The event state after L1 in the C4 witness. -/
def eFirst : FetchEvent := ⟨reqX, none, false, [⟨3, .ok (.num 7)⟩], false, false⟩

/-- A scope with L1, L2, L3 registered in order. -/
def sThree : ScopeState :=
  ⟨false, [], 0, [(1, lFirst), (2, lSecond), (3, lThird)], [], none, []⟩

/-- Witness for C4 at concrete inputs. -/
theorem second_responder_halts_dispatch_witness :
    (kDispatchFetch sThree upstreamX reqX false).2.2 =
      .ok (respX, promiseAll eFirst.kWaitUntil) :=
  (second_responder_halts_dispatch sThree upstreamX reqX false 1 2 3 lFirst
    lSecond lThird eFirst (JSPromise.resolved respX) respX rfl rfl rfl rfl rfl
    rfl).1

/-- The rejection used by the C2 counterexample. -/
def rejErr : JSError := .jsError (.str "task-rejection")

/-- A listener queueing a rejecting background task (settles at step 0) and
a fulfilling one (settles at step 5), then responding. -/
def lRejecting : FetchListener :=
  ⟨21, fun _ => [.waitUntil ⟨0, .error rejErr⟩, .waitUntil ⟨5, .ok (.num 1)⟩,
                 .respondWith (JSPromise.resolved ⟨"A"⟩)]⟩

/-- A scope with `lRejecting` as its only fetch listener. -/
def sRejecting : ScopeState := ⟨false, [], 0, [(0, lRejecting)], [], none, []⟩

/-- C2 counterexample: with two background tasks — one rejecting at step 0,
one fulfilling at step 5 — the returned background future settles (rejects)
already at step 0, before the second task has settled at step 5: the
`Promise.all` aggregate does not wait for all N promises to settle when one
rejects. -/
theorem background_future_failfast_counterexample :
    (kDispatchFetch sRejecting upstreamX reqX false).2.1.kWaitUntil =
      [⟨0, .error rejErr⟩, ⟨5, .ok (.num 1)⟩] ∧
    (kDispatchFetch sRejecting upstreamX reqX false).2.2 =
      .ok (⟨"A"⟩, ⟨0, .error rejErr⟩) ∧
    ¬ (5 ≤ 0) :=
  ⟨rfl, rfl, by decide⟩

/-- C2 amended: the background future attached to a resolved dispatch is
`Promise.all` of exactly the promises accumulated by the `waitUntil` calls,
in call order; it fulfils with their values only once every one of them has
settled (its settle time bounds each member's); but on a rejection it
settles early with the earliest rejection (fail-fast) while the sibling
promises still settle on their own, unmodified. -/
theorem background_future_all_settle_when_fulfilled :
    (∀ (s : ScopeState) (up : Request → JSPromise Response) (req : Request)
      (proxy : Bool) (r : Response) (wu : JSPromise (List JSValue)),
      (kDispatchFetch s up req proxy).2.2 = Except.ok (r, wu) →
      wu = promiseAll ((kDispatchFetch s up req proxy).2.1).kWaitUntil) ∧
    (∀ ps : List (JSPromise JSValue), firstRejection ps = none →
      promiseAll ps = ⟨maxSettleTime ps, .ok (fulfilledValues ps)⟩ ∧
      ∀ p ∈ ps, p.settleTime ≤ (promiseAll ps).settleTime) := by
  refine ⟨fun s up req proxy r wu h => kDispatchFetch_ok_waitUntil s up req
    proxy r wu h, ?_⟩
  intro ps hfr
  refine ⟨by simp [promiseAll, hfr], ?_⟩
  intro p hp
  have hall : promiseAll ps = ⟨maxSettleTime ps, .ok (fulfilledValues ps)⟩ := by
    simp [promiseAll, hfr]
  rw [hall]
  exact settleTime_le_maxSettleTime ps p hp

/-- The listener of the C2-amended witness. -/
def lResp : FetchListener :=
  ⟨22, fun _ => [.waitUntil ⟨4, .ok (.num 3)⟩,
                 .respondWith (JSPromise.resolved respX)]⟩

/-- A scope with `lResp` as its only fetch listener. -/
def sResp : ScopeState := ⟨false, [], 0, [(0, lResp)], [], none, []⟩

/-- Witness for the C2 amended theorem at concrete inputs. -/
theorem background_future_all_settle_when_fulfilled_witness :
    (JSPromise.mk 4 (.ok [JSValue.num 3]) =
      promiseAll ((kDispatchFetch sResp upstreamX reqX false).2.1).kWaitUntil) ∧
    (promiseAll [(⟨4, .ok (.num 3)⟩ : JSPromise JSValue)] =
      ⟨maxSettleTime [(⟨4, .ok (.num 3)⟩ : JSPromise JSValue)],
       .ok (fulfilledValues [(⟨4, .ok (.num 3)⟩ : JSPromise JSValue)])⟩ ∧
     ∀ p ∈ [(⟨4, .ok (.num 3)⟩ : JSPromise JSValue)],
       p.settleTime ≤
         (promiseAll [(⟨4, .ok (.num 3)⟩ : JSPromise JSValue)]).settleTime) :=
  ⟨background_future_all_settle_when_fulfilled.1 sResp upstreamX reqX false
     respX ⟨4, .ok [.num 3]⟩ rfl,
   background_future_all_settle_when_fulfilled.2
     [(⟨4, .ok (.num 3)⟩ : JSPromise JSValue)] rfl⟩

/-- C9: `FetchEvent.waitUntil` never throws — even with the window-closed
flag set it just appends to the event's task list — and the background
future a completed dispatch has already returned is `Promise.all` over the
event's list as it stood at completion, so a later append (which only grows
the list) is not reflected in it. -/
theorem waitUntil_never_throws_late_append :
    (∀ (e : FetchEvent) (p : JSPromise JSValue), e.kSent = true →
      FetchEvent.waitUntil e p =
        ({ e with kWaitUntil := e.kWaitUntil ++ [p] }, none)) ∧
    (∀ (s : ScopeState) (up : Request → JSPromise Response) (req : Request)
      (proxy : Bool) (r : Response) (wu : JSPromise (List JSValue))
      (p : JSPromise JSValue),
      (kDispatchFetch s up req proxy).2.2 = Except.ok (r, wu) →
      wu = promiseAll ((kDispatchFetch s up req proxy).2.1).kWaitUntil ∧
      (FetchEvent.waitUntil ((kDispatchFetch s up req proxy).2.1) p).1.kWaitUntil
        = ((kDispatchFetch s up req proxy).2.1).kWaitUntil ++ [p]) :=
  ⟨fun _ _ _ => rfl,
   fun s up req proxy r wu _ h =>
     ⟨kDispatchFetch_ok_waitUntil s up req proxy r wu h, rfl⟩⟩

/-- The listener of the C9 witness. -/
def lNine : FetchListener :=
  ⟨91, fun _ => [.waitUntil ⟨6, .ok (.num 11)⟩,
                 .respondWith (JSPromise.resolved respX)]⟩

/-- A scope with `lNine` as its only fetch listener. -/
def sNine : ScopeState := ⟨false, [], 0, [(0, lNine)], [], none, []⟩

/-- Witness for C9 at concrete inputs. -/
theorem waitUntil_never_throws_late_append_witness :
    FetchEvent.waitUntil (⟨reqX, none, false, [], true, false⟩ : FetchEvent)
        ⟨1, .ok .undef⟩ =
      ({ (⟨reqX, none, false, [], true, false⟩ : FetchEvent) with
          kWaitUntil := (⟨reqX, none, false, [], true, false⟩ :
            FetchEvent).kWaitUntil ++ [⟨1, .ok .undef⟩] }, none) ∧
    (JSPromise.mk 6 (.ok [JSValue.num 11]) =
      promiseAll ((kDispatchFetch sNine upstreamX reqX false).2.1).kWaitUntil ∧
     (FetchEvent.waitUntil ((kDispatchFetch sNine upstreamX reqX false).2.1)
        ⟨1, .ok .undef⟩).1.kWaitUntil =
       ((kDispatchFetch sNine upstreamX reqX false).2.1).kWaitUntil ++
         [⟨1, .ok .undef⟩]) :=
  ⟨waitUntil_never_throws_late_append.1
     (⟨reqX, none, false, [], true, false⟩ : FetchEvent) ⟨1, .ok .undef⟩ rfl,
   waitUntil_never_throws_late_append.2 sNine upstreamX reqX false respX
     ⟨6, .ok [.num 11]⟩ ⟨1, .ok .undef⟩ rfl⟩

/-- A scope with a probe scheduled listener. -/
def sSchedProbe : ScopeState := ⟨false, [], 0, [], [(0, probeSched 61)], none, []⟩

/-- Witness for C6 at concrete inputs: explicit arguments are delivered
verbatim, omitted ones default to the clock time and the empty cron. -/
theorem dispatchScheduled_defaults_delivery_order_witness :
    (kDispatchScheduled sSchedProbe 42 (some 7) (some "* * * * *")).2.2 =
      .ok [.num ((some (7 : Int)).getD 42), .str ((some "* * * * *").getD "")] ∧
    (kDispatchScheduled sSchedProbe 42 none none).2.2 =
      .ok [.num ((none : Option Int).getD 42), .str ((none : Option String).getD "")] :=
  ⟨(dispatchScheduled_defaults_delivery_order sSchedProbe 42 (some 7)
      (some "* * * * *")).2.1 0 61 rfl,
   (dispatchScheduled_defaults_delivery_order sSchedProbe 42 none none).2.1 0
     61 rfl⟩
